import Mathlib

/-!
Verification of the prompt-routing core of the MayuraAI backend.

The definitions below are a shallow embedding of
`src/classifier/router/prompt_router.py` (class `PromptRouter`) and of the
routing endpoint in `src/classifier/router/main.py`.  Python dictionaries are
modelled as association lists in insertion order (Python dict iteration
order), Python floats as rationals, and `.get(key, default)` accesses as
`Option` fields with `getD` (for category-quality lookups, as a total
function `String → ℚ` whose value is the dict lookup with default 0).
Fallible code paths (Python exceptions) are modelled with `Option`/`Except`.
-/

namespace MayuraRouter

/-- One value of the `model_scores` config dict: the fields that the routing
code reads from a model entry via `.get`.  `categoryQuality c` models
`model_data.get(c, 0)` for a category name `c`. -/
structure ModelData where
  tier : Option String
  cost_per_request : Option ℚ
  categoryQuality : String → ℚ
  is_default : Bool
  display_name : Option String
  provider : Option String
  provider_model_name : Option String
  is_thinking_model : Bool

/-- `model_data.get('tier', 'free')`. -/
def tierOf (md : ModelData) : String := md.tier.getD "free"

/-- The `self.task_importance` table built in `_load_config`, composed with the
`.get(category, 'medium')` lookup in `_get_dynamic_weights`. -/
def task_importance (category : String) : String :=
  if category = "math" ∨ category = "code_generation" ∨ category = "reasoning" ∨
      category = "problem_solving" ∨ category = "research" ∨ category = "data_analysis" then
    "critical"
  else if category = "translation" ∨ category = "writing" ∨ category = "summarization" ∨
      category = "extraction" ∨ category = "creative" then
    "medium"
  else if category = "conversation" ∨ category = "roleplay" ∨ category = "classification" then
    "casual"
  else "medium"

/-- The numeric importance assigned to a category in `_get_dynamic_weights`:
critical → 1.0, medium → 0.5, otherwise (casual) → 0.0. -/
def category_importance (category : String) : ℚ :=
  if task_importance category = "critical" then 1
  else if task_importance category = "medium" then 1/2
  else 0

/-- The `importance_score` accumulator of `_get_dynamic_weights` before the
conditional normalization: `Σ prob * category_importance`. -/
def importance_score_raw (category_probs : List (String × ℚ)) : ℚ :=
  (category_probs.map (fun p => p.2 * category_importance p.1)).sum

/-- The `total_prob` accumulator of `_get_dynamic_weights`: `Σ prob`. -/
def total_prob (category_probs : List (String × ℚ)) : ℚ :=
  (category_probs.map Prod.snd).sum

/-- `PromptRouter._get_dynamic_weights`: importance score (normalized only when
`total_prob > 0`) thresholded into a (quality_weight, cost_weight) pair. -/
def get_dynamic_weights (category_probs : List (String × ℚ)) : ℚ × ℚ :=
  let raw := importance_score_raw category_probs
  let tp := total_prob category_probs
  let importance_score := if 0 < tp then raw / tp else raw
  if 7/10 ≤ importance_score then (9/10, 1/10)
  else if 4/10 ≤ importance_score then (6/10, 4/10)
  else (2/10, 8/10)

/-- `PromptRouter._filter_models_by_tier`: pro requests keep only pro-tier
models, free requests keep only free-tier models, any other request type
keeps nothing. -/
def filter_models_by_tier (cfg_models : List (String × ModelData)) (request_type : String) :
    List (String × ModelData) :=
  cfg_models.filter (fun m =>
    if request_type = "pro" then tierOf m.2 == "pro"
    else if request_type = "free" then tierOf m.2 == "free"
    else false)

/-- The per-model record built by `_calculate_model_scores`. -/
structure Scored where
  quality_score : ℚ
  cost : ℚ
  tier : String
  provider : String
  display_name : String
  provider_model_name : String
  is_thinking_model : Bool
deriving DecidableEq

/-- `PromptRouter._calculate_model_scores`: probability-weighted quality score
and cost (with `.get` defaults) for each filtered model. -/
def calculate_model_scores (category_probs : List (String × ℚ))
    (filtered_models : List (String × ModelData)) : List (String × Scored) :=
  filtered_models.map (fun m =>
    (m.1,
      { quality_score := (category_probs.map (fun p => p.2 * m.2.categoryQuality p.1)).sum
        cost := m.2.cost_per_request.getD 0
        tier := tierOf m.2
        provider := m.2.provider.getD "unknown"
        display_name := m.2.display_name.getD m.1
        provider_model_name := m.2.provider_model_name.getD m.1
        is_thinking_model := m.2.is_thinking_model }))

/-- Python `max(l)` over a possibly-empty list with the default the code uses
when the list is empty (`max(quality_scores) if quality_scores else 1`). -/
def py_max (l : List ℚ) (dflt : ℚ) : ℚ :=
  match l with
  | [] => dflt
  | x :: xs => xs.foldl max x

/-- Python `min(l)` with an explicit default for the empty list. -/
def py_min (l : List ℚ) (dflt : ℚ) : ℚ :=
  match l with
  | [] => dflt
  | x :: xs => xs.foldl min x

/-- The normalized per-model record built by `_normalize_scores`. -/
structure Normalized where
  quality_score : ℚ
  normalized_quality : ℚ
  cost : ℚ
  normalized_cost : ℚ
  final_score : ℚ
  tier : String
  provider : String
  display_name : String
  provider_model_name : String
  is_thinking_model : Bool
deriving DecidableEq

/-- Quality normalization in `_normalize_scores`: min–max scaled, or `1.0`
for everyone when `max_quality == min_quality`. -/
def norm_quality_of (min_quality max_quality q : ℚ) : ℚ :=
  if max_quality = min_quality then 1
  else (q - min_quality) / (max_quality - min_quality)

/-- Cost normalization in `_normalize_scores`: inverted min–max scaling
(lower cost is better), or `1.0` for everyone when `max_cost == min_cost`. -/
def norm_cost_of (min_cost max_cost c : ℚ) : ℚ :=
  if max_cost = min_cost then 1
  else 1 - (c - min_cost) / (max_cost - min_cost)

/-- The per-model body of the loop in `_normalize_scores`. -/
def normalize_one (min_q max_q min_c max_c quality_weight cost_weight : ℚ)
    (s : String × Scored) : String × Normalized :=
  (s.1,
    { quality_score := s.2.quality_score
      normalized_quality := norm_quality_of min_q max_q s.2.quality_score
      cost := s.2.cost
      normalized_cost := norm_cost_of min_c max_c s.2.cost
      final_score := quality_weight * norm_quality_of min_q max_q s.2.quality_score +
        cost_weight * norm_cost_of min_c max_c s.2.cost
      tier := s.2.tier
      provider := s.2.provider
      display_name := s.2.display_name
      provider_model_name := s.2.provider_model_name
      is_thinking_model := s.2.is_thinking_model })

/-- `PromptRouter._normalize_scores`: min/max are taken over the current
candidate set (with the defaults `1`/`0` for an empty set), then every
candidate is min–max normalized and combined with the dynamic weights. -/
def normalize_scores (model_scores : List (String × Scored))
    (quality_weight cost_weight : ℚ) : List (String × Normalized) :=
  let quality_scores := model_scores.map (fun s => s.2.quality_score)
  let costs := model_scores.map (fun s => s.2.cost)
  model_scores.map
    (normalize_one (py_min quality_scores 0) (py_max quality_scores 1)
      (py_min costs 0) (py_max costs 1) quality_weight cost_weight)

/-- `as` occurs at the head of `bs` (character-sequence matching). -/
def starts_with_chars : List Char → List Char → Bool
  | [], _ => true
  | _ :: _, [] => false
  | a :: as, b :: bs => a == b && starts_with_chars as bs

/-- `needle` occurs as a contiguous subsequence of the second list. -/
def contains_chars (needle : List Char) : List Char → Bool
  | [] => needle.isEmpty
  | c :: cs => starts_with_chars needle (c :: cs) || contains_chars needle cs

/-- Character-wise lowercasing of a string (the effect of `re.IGNORECASE` is
modelled by lowercasing both the keyword and the prompt). -/
def lower_chars (s : String) : List Char := s.toList.map Char.toLower

/-- A compiled `_PATTERNS` search: the pattern is an alternation of
`re.escape`d keywords with `re.IGNORECASE`, so `pattern.search(prompt)`
succeeds exactly when some keyword occurs case-insensitively as a literal
substring of the prompt. -/
def keyword_search (keywords : List String) (prompt : String) : Bool :=
  keywords.any (fun k => contains_chars (lower_chars k) (lower_chars prompt))

/-- The `_KEYWORDS` table.  Note that `re.escape` turns the raw keyword
`\d+` of the math entry into a literal three-character substring match. -/
def keyword_table : List (String × List String) :=
  [("math", ["calculate", "solve", "equation", "integral", "derivative", "\\d+"]),
   ("code_generation", ["import ", "def ", "class ", "function", "return ", "print(",
      "console.log", "var ", "let ", "const "]),
   ("translation", ["translate", "in spanish", "in french", "into german", "to english",
      "traduce", "übersetze"]),
   ("summarization", ["summarize", "summary", "condense", "tl;dr"]),
   ("extraction", ["extract", "entities", "fields", "find all", "parse"]),
   ("classification", ["classify", "what category", "which class", "label"]),
   ("problem_solving", ["troubleshoot", "fix", "issue", "error", "debug", "problem",
      "why won’t"]),
   ("reasoning", ["why", "how", "step by step", "reasoning", "think about"]),
   ("data_analysis", ["data", "plot", "chart", "visualize", "csv", "dataset", "statistics",
      "mean", "median"]),
   ("research", ["research", "study", "analyze", "compare", "investigate", "literature"]),
   ("writing", ["write an essay", "draft", "compose", "letter", "email", "blog post",
      "article"]),
   ("creative", ["story", "poem", "joke", "imagine", "creative", "generate a poem",
      "write a song"]),
   ("roleplay", ["you are", "roleplay", "act as", "character", "in character"]),
   ("conversation", ["hi", "hello", "how are you", "chat with me", "tell me about yourself"])]

/-- The ordered `checks` list of `_apply_simple_prompt_rules`. -/
def rule_checks : List (String × List (String × ℚ)) :=
  [("math", [("math", 19/20), ("reasoning", 1/20)]),
   ("code_generation", [("code_generation", 9/10), ("problem_solving", 1/10)]),
   ("translation", [("translation", 9/10), ("writing", 1/10)]),
   ("summarization", [("summarization", 9/10), ("writing", 1/10)]),
   ("extraction", [("extraction", 9/10), ("classification", 1/10)]),
   ("classification", [("classification", 9/10), ("reasoning", 1/10)]),
   ("problem_solving", [("problem_solving", 9/10), ("reasoning", 1/10)]),
   ("reasoning", [("reasoning", 19/20), ("problem_solving", 1/20)]),
   ("data_analysis", [("data_analysis", 9/10), ("research", 1/10)]),
   ("research", [("research", 17/20), ("writing", 3/20)]),
   ("writing", [("writing", 9/10), ("creative", 1/10)]),
   ("creative", [("creative", 9/10), ("writing", 1/10)]),
   ("roleplay", [("roleplay", 9/10), ("conversation", 1/10)]),
   ("conversation", [("conversation", 9/10), ("roleplay", 1/10)])]

/-- Keywords of one category in `_KEYWORDS`. -/
def lookup_keywords (category : String) : List String :=
  ((keyword_table.find? (fun e => e.1 == category)).map Prod.snd).getD []

/-- `PromptRouter._apply_simple_prompt_rules`: the first entry of `checks`
whose pattern matches the prompt, or `None`. -/
def apply_simple_prompt_rules (prompt : String) : Option (String × List (String × ℚ)) :=
  rule_checks.find? (fun c => keyword_search (lookup_keywords c.1) prompt)

/-- The `self.default_model` computed by `_load_config`: the first model of
the config whose `is_default` is set, if any. -/
def find_default_model (cfg_models : List (String × ModelData)) : Option String :=
  (cfg_models.find? (fun m => m.2.is_default)).map Prod.fst

/-- The `self.model_display_name_map` built by `_load_config`: the loop adds
one entry per model but breaks right after the first default model. -/
def display_map_entries : List (String × ModelData) → List (String × String)
  | [] => []
  | m :: rest =>
    (m.1, m.2.display_name.getD m.1) ::
      (if m.2.is_default then [] else display_map_entries rest)

/-- `dict.get(k)` on the display-name map (no default). -/
def lookup_display (entries : List (String × String)) (k : String) : Option String :=
  (entries.find? (fun e => e.1 == k)).map Prod.snd

/-- `k in self.model_scores` / `self.model_scores[k]` on the config dict. -/
def dict_lookup (cfg_models : List (String × ModelData)) (k : String) : Option ModelData :=
  (cfg_models.find? (fun m => m.1 == k)).map Prod.snd

/-- The empty-filter fallback of `route_prompt`: the default model when its
name is truthy and present in the config, otherwise the first config entry
(`none` models the `IndexError` of `list(...)[0]` on an empty config). -/
def fallback_models (cfg_models : List (String × ModelData)) :
    Option (List (String × ModelData)) :=
  match find_default_model cfg_models with
  | some d =>
    if d = "" then (cfg_models.head?).map (fun m => [m])
    else
      match dict_lookup cfg_models d with
      | some md => some [(d, md)]
      | none => (cfg_models.head?).map (fun m => [m])
  | none => (cfg_models.head?).map (fun m => [m])

/-- The candidate set `route_prompt` hands to scoring: the tier-filtered
models, or the fallback when the filter comes back empty. -/
def effective_candidates (cfg_models : List (String × ModelData)) (request_type : String) :
    Option (List (String × ModelData)) :=
  let filtered := filter_models_by_tier cfg_models request_type
  if filtered.isEmpty then fallback_models cfg_models else some filtered

/-- Python `max(category_probs, key=category_probs.get)` starting from a
first element: later entries replace the current best only when strictly
greater, so ties keep the earliest key. -/
def max_key_aux (best : String × ℚ) : List (String × ℚ) → String
  | [] => best.1
  | p :: rest => max_key_aux (if best.2 < p.2 then p else best) rest

/-- The `metadata` dict of a routing decision. -/
structure RouteMetadata where
  predicted_category : String
  confidence : ℚ
  category_probabilities : List (String × ℚ)
  quality_weight : ℚ
  cost_weight : ℚ
  model_scores : List (String × Normalized)
  classification_method : String
deriving DecidableEq

/-- The dict returned by `route_prompt`.  `default_model` is `None` when the
config has no default entry. -/
structure RouteDecision where
  primary_model : String
  primary_model_display_name : String
  secondary_model : String
  secondary_model_display_name : String
  default_model : Option String
  default_model_display_name : Option String
  metadata : RouteMetadata
deriving DecidableEq

/-- The comparison realized by `sorted(..., key=lambda x: x[1]['final_score'],
reverse=True)`: descending final score. -/
def score_ge (a b : String × Normalized) : Prop := b.2.final_score ≤ a.2.final_score

instance : DecidableRel score_ge := fun a b =>
  inferInstanceAs (Decidable (b.2.final_score ≤ a.2.final_score))

instance : IsTotal (String × Normalized) score_ge :=
  ⟨fun a b => le_total b.2.final_score a.2.final_score⟩

instance : IsTrans (String × Normalized) score_ge :=
  ⟨fun _ _ _ h1 h2 => le_trans h2 h1⟩

/-- Python `sorted` with `reverse=True` is a stable descending sort; insertion
sort with `score_ge` (which moves an element past strictly greater scores
only) realizes exactly that order. -/
def sort_desc (l : List (String × Normalized)) : List (String × Normalized) :=
  List.insertionSort score_ge l

/-- `PromptRouter.route_prompt` as a function of the config dict, the prompt,
the request type and the distribution returned by the external classifier.
In the source, `simple_result` is the literal `None` (the call to
`_apply_simple_prompt_rules` is commented out), so the rule-based branch is
dead and classification always uses the ML collaborator result; the dead
branch is therefore not part of the embedding.  `none` models the exceptions:
`IndexError` on an empty config in the fallback, `ValueError` from `max()`
on an empty distribution, and the `KeyError` of
`normalized_scores[primary_model]` when no candidate was scored. -/
def route_prompt (cfg_models : List (String × ModelData)) (_prompt : String)
    (request_type : String) (classifier_probs : List (String × ℚ)) :
    Option RouteDecision :=
  match effective_candidates cfg_models request_type with
  | none => none
  | some filtered_models =>
    match classifier_probs with
    | [] => none
    | c :: cs =>
      let predicted_category := max_key_aux c cs
      let confidence := cs.foldl (fun b p => max b p.2) c.2
      let w := get_dynamic_weights (c :: cs)
      let scored := calculate_model_scores (c :: cs) filtered_models
      let normalized := normalize_scores scored w.1 w.2
      match sort_desc normalized with
      | [] => none
      | top :: rest =>
        let secondary := match rest with | [] => top | s :: _ => s
        some
          { primary_model := top.1
            primary_model_display_name := top.2.display_name
            secondary_model := secondary.1
            secondary_model_display_name := secondary.2.display_name
            default_model := find_default_model cfg_models
            default_model_display_name :=
              (find_default_model cfg_models).map (fun dm =>
                (lookup_display (display_map_entries cfg_models) dm).getD dm)
            metadata :=
              { predicted_category := predicted_category
                confidence := confidence
                category_probabilities := c :: cs
                quality_weight := w.1
                cost_weight := w.2
                model_scores := normalized
                classification_method := "ml_classification" } }

/-- `route_prompt_endpoint` in `main.py`: request types other than "pro" and
"free" are rejected with HTTP 400 before routing; any exception out of
`route_prompt` becomes HTTP 500.  No other validation is performed. -/
def route_prompt_endpoint (cfg_models : List (String × ModelData)) (prompt : String)
    (request_type : String) (classifier_probs : List (String × ℚ)) :
    Except Nat RouteDecision :=
  if request_type ≠ "pro" ∧ request_type ≠ "free" then Except.error 400
  else
    match route_prompt cfg_models prompt request_type classifier_probs with
    | some d => Except.ok d
    | none => Except.error 500

/-- The mutable router configuration state: the config dict, the derived
default model and the reload timestamp `_last_config_check`. -/
structure RouterState where
  model_scores_cfg : List (String × ModelData)
  default_model : Option String
  last_config_check : ℚ

/-- `self._config_check_interval` (60 seconds). -/
def config_check_interval : ℚ := 60

/-- `_load_config`: replace the config dict and recompute the default model;
the reload timestamp is not touched by `_load_config` itself. -/
def load_config (st : RouterState) (file_models : List (String × ModelData)) : RouterState :=
  { st with model_scores_cfg := file_models,
            default_model := find_default_model file_models }

/-- `PromptRouter._check_config_reload` as a function of the current wall
clock, the config file's mtime and the file's parsed contents. -/
def check_config_reload (st : RouterState) (current_time mtime : ℚ)
    (file_models : List (String × ModelData)) : RouterState :=
  if config_check_interval < current_time - st.last_config_check then
    let st1 := if st.last_config_check < mtime then load_config st file_models else st
    { st1 with last_config_check := current_time }
  else st

/-- The effect of one `route_prompt` call on the router configuration state.
The call to `self._check_config_reload()` at the top of `route_prompt` is
commented out, and no other statement of `route_prompt` assigns router
state, so a routing call leaves the configuration state unchanged. -/
def route_prompt_config_effect (st : RouterState) (_current_time _mtime : ℚ)
    (_file_models : List (String × ModelData)) : RouterState := st

/-- Modelled from the claim for comparison: numeric importance is 1.0 for a
critical category, 0.5 for medium, 0.0 for casual; unknown categories default
to medium (the default is part of the `task_importance` lookup). -/
def importance_value_spec (category : String) : ℚ :=
  if task_importance category = "critical" then 1
  else if task_importance category = "casual" then 0
  else 1/2

/-- Modelled from the claim for comparison: importance score is
`Σ(prob·importance)/Σ(prob)`, or 0 when the probabilities sum to 0, and the
score is thresholded at 0.7 and 0.4 into the three weight pairs. -/
def importance_weights_spec (distribution : List (String × ℚ)) : ℚ × ℚ :=
  let total := (distribution.map Prod.snd).sum
  let score :=
    if total = 0 then 0
    else (distribution.map (fun p => p.2 * importance_value_spec p.1)).sum / total
  if 7/10 ≤ score then (9/10, 1/10)
  else if 4/10 ≤ score then (6/10, 4/10)
  else (2/10, 8/10)

/-! Concrete fixtures used by witnesses and counterexamples. -/

/-- A minimal config entry: free tier (by default), zero cost, zero quality
coefficients, marked as the default model. -/
def mdA : ModelData :=
  { tier := none
    cost_per_request := none
    categoryQuality := fun _ => 0
    is_default := true
    display_name := none
    provider := none
    provider_model_name := none
    is_thinking_model := false }

/-- A second config entry, pro tier, named "b". -/
def mdB : ModelData :=
  { tier := some "pro"
    cost_per_request := some 1
    categoryQuality := fun _ => 0
    is_default := false
    display_name := none
    provider := none
    provider_model_name := none
    is_thinking_model := false }

/-- A one-model catalog. -/
def catalog0 : List (String × ModelData) := [("a", mdA)]

/-- A classifier distribution concentrated on a casual category. -/
def probs0 : List (String × ℚ) := [("conversation", 1)]

/-- The normalized score record `route_prompt` computes for model "a" of
`catalog0` under `probs0`. -/
def n0 : Normalized :=
  { quality_score := 0
    normalized_quality := 1
    cost := 0
    normalized_cost := 1
    final_score := 1
    tier := "free"
    provider := "unknown"
    display_name := "a"
    provider_model_name := "a"
    is_thinking_model := false }

/-- The routing decision for `catalog0` and `probs0` on a free request. -/
def d0 : RouteDecision :=
  { primary_model := "a"
    primary_model_display_name := "a"
    secondary_model := "a"
    secondary_model_display_name := "a"
    default_model := some "a"
    default_model_display_name := some "a"
    metadata :=
      { predicted_category := "conversation"
        confidence := 1
        category_probabilities := probs0
        quality_weight := 2/10
        cost_weight := 8/10
        model_scores := [("a", n0)]
        classification_method := "ml_classification" } }

/-! Helper lemmas about the importance classifier. -/

lemma task_importance_cases (c : String) :
    task_importance c = "critical" ∨ task_importance c = "medium" ∨
      task_importance c = "casual" := by
  unfold task_importance
  split_ifs <;> simp

lemma category_importance_nonneg (c : String) : 0 ≤ category_importance c := by
  unfold category_importance
  split_ifs <;> norm_num

lemma category_importance_le_one (c : String) : category_importance c ≤ 1 := by
  unfold category_importance
  split_ifs <;> norm_num

lemma importance_raw_nonneg (probs : List (String × ℚ)) (h : ∀ p ∈ probs, 0 ≤ p.2) :
    0 ≤ importance_score_raw probs := by
  induction probs with
  | nil => simp [importance_score_raw]
  | cons p rest ih =>
    have h1 : 0 ≤ p.2 := h p (by simp)
    have h2 : 0 ≤ importance_score_raw rest := ih (fun q hq => h q (by simp [hq]))
    have h3 := mul_nonneg h1 (category_importance_nonneg p.1)
    simp only [importance_score_raw, List.map_cons, List.sum_cons] at h2 ⊢
    linarith

lemma importance_raw_le_total (probs : List (String × ℚ)) (h : ∀ p ∈ probs, 0 ≤ p.2) :
    importance_score_raw probs ≤ total_prob probs := by
  induction probs with
  | nil => simp [importance_score_raw, total_prob]
  | cons p rest ih =>
    have h1 : 0 ≤ p.2 := h p (by simp)
    have h2 : importance_score_raw rest ≤ total_prob rest :=
      ih (fun q hq => h q (by simp [hq]))
    have h3 : p.2 * category_importance p.1 ≤ p.2 * 1 :=
      mul_le_mul_of_nonneg_left (category_importance_le_one p.1) h1
    simp only [importance_score_raw, total_prob, List.map_cons, List.sum_cons] at h2 ⊢
    linarith

lemma get_dynamic_weights_cases (probs : List (String × ℚ)) :
    get_dynamic_weights probs = (9/10, 1/10) ∨ get_dynamic_weights probs = (6/10, 4/10) ∨
      get_dynamic_weights probs = (2/10, 8/10) := by
  unfold get_dynamic_weights
  dsimp only
  split_ifs <;> simp

/-! Helper lemmas about min–max normalization. -/

lemma le_foldl_max (l : List ℚ) (a : ℚ) : a ≤ l.foldl max a := by
  induction l generalizing a with
  | nil => simp
  | cons b bs ih =>
    simp only [List.foldl_cons]
    exact le_trans (le_max_left a b) (ih (max a b))

lemma mem_le_foldl_max (l : List ℚ) (a x : ℚ) (hx : x ∈ l) : x ≤ l.foldl max a := by
  induction l generalizing a with
  | nil => cases hx
  | cons b bs ih =>
    simp only [List.foldl_cons]
    rcases List.mem_cons.mp hx with rfl | hx'
    · exact le_trans (le_max_right a x) (le_foldl_max bs (max a x))
    · exact ih (max a b) hx'

lemma foldl_min_le (l : List ℚ) (a : ℚ) : l.foldl min a ≤ a := by
  induction l generalizing a with
  | nil => simp
  | cons b bs ih =>
    simp only [List.foldl_cons]
    exact le_trans (ih (min a b)) (min_le_left a b)

lemma foldl_min_le_mem (l : List ℚ) (a x : ℚ) (hx : x ∈ l) : l.foldl min a ≤ x := by
  induction l generalizing a with
  | nil => cases hx
  | cons b bs ih =>
    simp only [List.foldl_cons]
    rcases List.mem_cons.mp hx with rfl | hx'
    · exact le_trans (foldl_min_le bs (min a x)) (min_le_right a x)
    · exact ih (min a b) hx'

lemma le_py_max {l : List ℚ} {x : ℚ} (hx : x ∈ l) (d : ℚ) : x ≤ py_max l d := by
  cases l with
  | nil => cases hx
  | cons a as =>
    simp only [py_max]
    rcases List.mem_cons.mp hx with rfl | hx'
    · exact le_foldl_max as x
    · exact mem_le_foldl_max as a x hx'

lemma py_min_le {l : List ℚ} {x : ℚ} (hx : x ∈ l) (d : ℚ) : py_min l d ≤ x := by
  cases l with
  | nil => cases hx
  | cons a as =>
    simp only [py_min]
    rcases List.mem_cons.mp hx with rfl | hx'
    · exact foldl_min_le as x
    · exact foldl_min_le_mem as a x hx'

lemma norm_quality_of_bounds {mn mx q : ℚ} (h1 : mn ≤ q) (h2 : q ≤ mx) :
    0 ≤ norm_quality_of mn mx q ∧ norm_quality_of mn mx q ≤ 1 := by
  unfold norm_quality_of
  split_ifs with h
  · norm_num
  · have hlt : mn < mx := lt_of_le_of_ne (le_trans h1 h2) (fun e => h e.symm)
    refine ⟨div_nonneg (by linarith) (by linarith), ?_⟩
    rw [div_le_one (by linarith)]
    linarith

lemma norm_cost_of_bounds {mn mx c : ℚ} (h1 : mn ≤ c) (h2 : c ≤ mx) :
    0 ≤ norm_cost_of mn mx c ∧ norm_cost_of mn mx c ≤ 1 := by
  unfold norm_cost_of
  split_ifs with h
  · norm_num
  · have hlt : mn < mx := lt_of_le_of_ne (le_trans h1 h2) (fun e => h e.symm)
    have h3 : 0 ≤ (c - mn) / (mx - mn) := div_nonneg (by linarith) (by linarith)
    have h4 : (c - mn) / (mx - mn) ≤ 1 := by
      rw [div_le_one (by linarith)]
      linarith
    constructor <;> linarith

lemma mem_normalize_scores {model_scores : List (String × Scored)} {qw cw : ℚ}
    {x : String × Normalized} (hx : x ∈ normalize_scores model_scores qw cw) :
    ∃ s ∈ model_scores,
      x = normalize_one (py_min (model_scores.map (fun s => s.2.quality_score)) 0)
        (py_max (model_scores.map (fun s => s.2.quality_score)) 1)
        (py_min (model_scores.map (fun s => s.2.cost)) 0)
        (py_max (model_scores.map (fun s => s.2.cost)) 1) qw cw s := by
  simp only [normalize_scores, List.mem_map] at hx
  obtain ⟨s, hs, rfl⟩ := hx
  exact ⟨s, hs, rfl⟩

lemma normalize_final_score_bounds {model_scores : List (String × Scored)} {qw cw : ℚ}
    (hqw : 0 ≤ qw) (hcw : 0 ≤ cw) (hsum : qw + cw = 1) {x : String × Normalized}
    (hx : x ∈ normalize_scores model_scores qw cw) :
    0 ≤ x.2.final_score ∧ x.2.final_score ≤ 1 := by
  obtain ⟨s, hs, rfl⟩ := mem_normalize_scores hx
  have hqmem : s.2.quality_score ∈ model_scores.map (fun s => s.2.quality_score) :=
    List.mem_map_of_mem _ hs
  have hcmem : s.2.cost ∈ model_scores.map (fun s => s.2.cost) :=
    List.mem_map_of_mem _ hs
  have hq := norm_quality_of_bounds (py_min_le hqmem 0) (le_py_max hqmem 1)
  have hc := norm_cost_of_bounds (py_min_le hcmem 0) (le_py_max hcmem 1)
  simp only [normalize_one]
  constructor
  · exact add_nonneg (mul_nonneg hqw hq.1) (mul_nonneg hcw hc.1)
  · have hb : qw * norm_quality_of _ _ s.2.quality_score +
        cw * norm_cost_of _ _ s.2.cost ≤ qw * 1 + cw * 1 :=
      add_le_add (mul_le_mul_of_nonneg_left hq.2 hqw) (mul_le_mul_of_nonneg_left hc.2 hcw)
    calc qw * norm_quality_of _ _ s.2.quality_score + cw * norm_cost_of _ _ s.2.cost
        ≤ qw * 1 + cw * 1 := hb
      _ = 1 := by rw [mul_one, mul_one, hsum]

/-- Claim C1: for every category-probability distribution and every non-empty
candidate set, the `final_score` computed by score normalization (with the
weight pair produced by the importance classifier) lies in [0, 1], including
the degenerate cases where all qualities or all costs are tied. -/
theorem final_score_within_unit_interval (category_probs : List (String × ℚ))
    (filtered_models : List (String × ModelData)) (_hne : filtered_models ≠ [])
    (x : String × Normalized)
    (hx : x ∈ normalize_scores (calculate_model_scores category_probs filtered_models)
      (get_dynamic_weights category_probs).1 (get_dynamic_weights category_probs).2) :
    0 ≤ x.2.final_score ∧ x.2.final_score ≤ 1 := by
  rcases get_dynamic_weights_cases category_probs with h | h | h <;> rw [h] at hx <;>
    exact normalize_final_score_bounds (by norm_num) (by norm_num) (by norm_num) hx

/-- Witness for C1 at a concrete one-model candidate set. -/
theorem final_score_within_unit_interval_witness :
    0 ≤ ("a", n0).2.final_score ∧ ("a", n0).2.final_score ≤ 1 :=
  final_score_within_unit_interval probs0 catalog0 (by simp [catalog0]) ("a", n0)
    (by norm_num +decide [normalize_scores, calculate_model_scores, catalog0, probs0, mdA,
      tierOf, normalize_one, norm_quality_of, norm_cost_of, py_max, py_min,
      get_dynamic_weights, importance_score_raw, total_prob, category_importance,
      task_importance, n0])

/-! Sum helper lemmas. -/

lemma sum_nonneg_list {l : List ℚ} (h : ∀ x ∈ l, 0 ≤ x) : 0 ≤ l.sum := by
  induction l with
  | nil => simp
  | cons b bs ih =>
    have h1 := h b (by simp)
    have h2 := ih (fun y hy => h y (by simp [hy]))
    simp only [List.sum_cons]
    linarith

lemma term_le_sum {l : List ℚ} (h : ∀ x ∈ l, 0 ≤ x) {x : ℚ} (hx : x ∈ l) : x ≤ l.sum := by
  induction l with
  | nil => cases hx
  | cons b bs ih =>
    rcases List.mem_cons.mp hx with rfl | hx'
    · have h1 : 0 ≤ bs.sum := sum_nonneg_list (fun y hy => h y (by simp [hy]))
      simp only [List.sum_cons]
      linarith
    · have hb : 0 ≤ b := h b (by simp)
      have h2 := ih (fun y hy => h y (by simp [hy])) hx'
      simp only [List.sum_cons]
      linarith

lemma total_prob_nonneg (probs : List (String × ℚ)) (h : ∀ p ∈ probs, 0 ≤ p.2) :
    0 ≤ total_prob probs := by
  unfold total_prob
  refine sum_nonneg_list ?_
  intro x hx
  obtain ⟨p, hp, rfl⟩ := List.mem_map.mp hx
  exact h p hp

lemma importance_raw_append (l1 l2 : List (String × ℚ)) :
    importance_score_raw (l1 ++ l2) =
      importance_score_raw l1 + importance_score_raw l2 := by
  simp [importance_score_raw]

lemma total_prob_append (l1 l2 : List (String × ℚ)) :
    total_prob (l1 ++ l2) = total_prob l1 + total_prob l2 := by
  simp [total_prob]

/-! C3: refinement of the importance classifier against the spec formula. -/

lemma category_importance_eq_spec (c : String) :
    category_importance c = importance_value_spec c := by
  rcases task_importance_cases c with h | h | h <;>
    simp +decide [category_importance, importance_value_spec, h]

/-- Claim C3: the dynamic-weight computation returns exactly the weight pair of the
spec formula (importance mapping with medium default, score normalized by the
probability total, zero-sum guard, thresholds at 0.7 and 0.4), and the two
weights always sum to 1. -/
theorem dynamic_weights_match_importance_spec (distribution : List (String × ℚ))
    (hpos : ∀ p ∈ distribution, 0 ≤ p.2) :
    get_dynamic_weights distribution = importance_weights_spec distribution ∧
    (get_dynamic_weights distribution).1 + (get_dynamic_weights distribution).2 = 1 := by
  have hraweq : importance_score_raw distribution =
      (distribution.map (fun p => p.2 * importance_value_spec p.1)).sum := by
    unfold importance_score_raw
    congr 1
    exact List.map_congr_left (fun p _ => by rw [category_importance_eq_spec])
  constructor
  · have e1 : (List.map Prod.snd distribution).sum = total_prob distribution := rfl
    by_cases htp : total_prob distribution = 0
    · have hraw0 : importance_score_raw distribution = 0 :=
        le_antisymm (htp ▸ importance_raw_le_total distribution hpos)
          (importance_raw_nonneg distribution hpos)
      unfold get_dynamic_weights importance_weights_spec
      dsimp only
      rw [e1, htp, hraw0]
      norm_num
    · have hlt : 0 < total_prob distribution :=
        lt_of_le_of_ne (total_prob_nonneg distribution hpos) (Ne.symm htp)
      unfold get_dynamic_weights importance_weights_spec
      dsimp only
      rw [e1, if_pos hlt, if_neg htp, ← hraweq]
  · rcases get_dynamic_weights_cases distribution with h | h | h <;> rw [h] <;> norm_num

/-- Witness for C3 at a concrete mixed distribution. -/
theorem dynamic_weights_match_importance_spec_witness :
    get_dynamic_weights [("math", 1/2), ("conversation", 1/2)] =
      importance_weights_spec [("math", 1/2), ("conversation", 1/2)] ∧
    (get_dynamic_weights [("math", 1/2), ("conversation", 1/2)]).1 +
      (get_dynamic_weights [("math", 1/2), ("conversation", 1/2)]).2 = 1 :=
  dynamic_weights_match_importance_spec [("math", 1/2), ("conversation", 1/2)]
    (by intro p hp; fin_cases hp <;> norm_num)

/-- Claim C7: for a distribution with at least 0.9 probability on a critical
category the quality weight is 0.9; with at least 0.9 on a casual category it
is 0.2. -/
theorem concentrated_distribution_thresholds (distribution : List (String × ℚ))
    (hpos : ∀ p ∈ distribution, 0 ≤ p.2) (hsum : total_prob distribution = 1) :
    (∀ p ∈ distribution, task_importance p.1 = "critical" → 9/10 ≤ p.2 →
      (get_dynamic_weights distribution).1 = 9/10) ∧
    (∀ p ∈ distribution, task_importance p.1 = "casual" → 9/10 ≤ p.2 →
      (get_dynamic_weights distribution).1 = 2/10) := by
  constructor
  · intro p hp hcrit hge
    have hterm : p.2 * category_importance p.1 ∈
        distribution.map (fun q => q.2 * category_importance q.1) :=
      List.mem_map_of_mem _ hp
    have hnn : ∀ x ∈ distribution.map (fun q => q.2 * category_importance q.1), 0 ≤ x := by
      intro x hx
      obtain ⟨q, hq, rfl⟩ := List.mem_map.mp hx
      exact mul_nonneg (hpos q hq) (category_importance_nonneg q.1)
    have hle : p.2 * category_importance p.1 ≤ importance_score_raw distribution :=
      term_le_sum hnn hterm
    have himp : category_importance p.1 = 1 := by
      simp +decide [category_importance, hcrit]
    rw [himp, mul_one] at hle
    have hscore : (7:ℚ)/10 ≤ importance_score_raw distribution := by linarith
    unfold get_dynamic_weights
    dsimp only
    rw [hsum]
    rw [if_pos (by norm_num : (0:ℚ) < 1), div_one, if_pos hscore]
  · intro p hp hcas hge
    obtain ⟨l1, l2, rfl⟩ := List.append_of_mem hp
    have hpos1 : ∀ q ∈ l1, (0:ℚ) ≤ q.2 := fun q hq => hpos q (by simp [hq])
    have hpos2 : ∀ q ∈ l2, (0:ℚ) ≤ q.2 := fun q hq => hpos q (by simp [hq])
    have himp : category_importance p.1 = 0 := by
      simp +decide [category_importance, hcas]
    have hraw : importance_score_raw (l1 ++ p :: l2) =
        importance_score_raw l1 + importance_score_raw l2 := by
      rw [importance_raw_append]
      simp only [importance_score_raw, List.map_cons, List.sum_cons, himp, mul_zero]
      ring
    have htot : total_prob (l1 ++ p :: l2) = total_prob l1 + p.2 + total_prob l2 := by
      rw [total_prob_append]
      simp only [total_prob, List.map_cons, List.sum_cons]
      ring
    have h1 := importance_raw_le_total l1 hpos1
    have h2 := importance_raw_le_total l2 hpos2
    have hscore : importance_score_raw (l1 ++ p :: l2) ≤ 1/10 := by
      rw [htot] at hsum
      rw [hraw]
      linarith
    have hnn : 0 ≤ importance_score_raw (l1 ++ p :: l2) :=
      importance_raw_nonneg _ hpos
    unfold get_dynamic_weights
    dsimp only
    rw [hsum]
    rw [if_pos (by norm_num : (0:ℚ) < 1), div_one,
      if_neg (by linarith : ¬ (7:ℚ)/10 ≤ importance_score_raw (l1 ++ p :: l2)),
      if_neg (by linarith : ¬ (4:ℚ)/10 ≤ importance_score_raw (l1 ++ p :: l2))]

/-- Witness for C7: one distribution concentrated on a critical category and
one concentrated on a casual category. -/
theorem concentrated_distribution_thresholds_witness :
    (get_dynamic_weights [("math", 9/10), ("conversation", 1/10)]).1 = 9/10 ∧
    (get_dynamic_weights [("conversation", 9/10), ("math", 1/10)]).1 = 2/10 :=
  ⟨(concentrated_distribution_thresholds [("math", 9/10), ("conversation", 1/10)]
      (by intro p hp; fin_cases hp <;> norm_num)
      (by norm_num [total_prob])).1 ("math", 9/10) (by norm_num)
      (by simp +decide [task_importance]) (by norm_num),
   (concentrated_distribution_thresholds [("conversation", 9/10), ("math", 1/10)]
      (by intro p hp; fin_cases hp <;> norm_num)
      (by norm_num [total_prob])).2 ("conversation", 9/10) (by norm_num)
      (by simp +decide [task_importance]) (by norm_num)⟩

/-! C8: degenerate ties. -/

lemma foldl_max_const (l : List ℚ) (v : ℚ) (h : ∀ x ∈ l, x = v) : l.foldl max v = v := by
  induction l with
  | nil => rfl
  | cons b bs ih =>
    have hb : b = v := h b (by simp)
    simp only [List.foldl_cons, hb, max_self]
    exact ih (fun x hx => h x (by simp [hx]))

lemma foldl_min_const (l : List ℚ) (v : ℚ) (h : ∀ x ∈ l, x = v) : l.foldl min v = v := by
  induction l with
  | nil => rfl
  | cons b bs ih =>
    have hb : b = v := h b (by simp)
    simp only [List.foldl_cons, hb, min_self]
    exact ih (fun x hx => h x (by simp [hx]))

lemma py_max_const {l : List ℚ} {v : ℚ} (h : ∀ x ∈ l, x = v) (hne : l ≠ []) (d : ℚ) :
    py_max l d = v := by
  cases l with
  | nil => exact absurd rfl hne
  | cons a as =>
    have ha : a = v := h a (by simp)
    simp only [py_max, ha]
    exact foldl_max_const as v (fun x hx => h x (by simp [hx]))

lemma py_min_const {l : List ℚ} {v : ℚ} (h : ∀ x ∈ l, x = v) (hne : l ≠ []) (d : ℚ) :
    py_min l d = v := by
  cases l with
  | nil => exact absurd rfl hne
  | cons a as =>
    have ha : a = v := h a (by simp)
    simp only [py_min, ha]
    exact foldl_min_const as v (fun x hx => h x (by simp [hx]))

/-- Claim C8: when all candidates have the same computed quality score, every
normalized quality is 1.0; when all candidates have the same cost, every
normalized cost is 1.0 (no division by zero, no implicit tie-breaking). -/
theorem degenerate_ties_normalize_to_one (model_scores : List (String × Scored))
    (quality_weight cost_weight : ℚ) :
    ((∀ a ∈ model_scores, ∀ b ∈ model_scores, a.2.quality_score = b.2.quality_score) →
      ∀ x ∈ normalize_scores model_scores quality_weight cost_weight,
        x.2.normalized_quality = 1) ∧
    ((∀ a ∈ model_scores, ∀ b ∈ model_scores, a.2.cost = b.2.cost) →
      ∀ x ∈ normalize_scores model_scores quality_weight cost_weight,
        x.2.normalized_cost = 1) := by
  constructor
  · intro hall x hx
    obtain ⟨s, hs, rfl⟩ := mem_normalize_scores hx
    have hconst : ∀ q ∈ model_scores.map (fun t => t.2.quality_score),
        q = s.2.quality_score := by
      intro q hq
      obtain ⟨t, ht, rfl⟩ := List.mem_map.mp hq
      exact hall t ht s hs
    have hne : model_scores.map (fun t => t.2.quality_score) ≠ [] := by
      intro he
      rw [List.map_eq_nil_iff] at he
      rw [he] at hs
      cases hs
    have hmax := py_max_const hconst hne 1
    have hmin := py_min_const hconst hne 0
    simp only [normalize_one]
    rw [show (model_scores.map (fun s => s.2.quality_score)) =
      (model_scores.map (fun t => t.2.quality_score)) from rfl, hmax, hmin]
    simp [norm_quality_of]
  · intro hall x hx
    obtain ⟨s, hs, rfl⟩ := mem_normalize_scores hx
    have hconst : ∀ q ∈ model_scores.map (fun t => t.2.cost), q = s.2.cost := by
      intro q hq
      obtain ⟨t, ht, rfl⟩ := List.mem_map.mp hq
      exact hall t ht s hs
    have hne : model_scores.map (fun t => t.2.cost) ≠ [] := by
      intro he
      rw [List.map_eq_nil_iff] at he
      rw [he] at hs
      cases hs
    have hmax := py_max_const hconst hne 1
    have hmin := py_min_const hconst hne 0
    simp only [normalize_one]
    rw [show (model_scores.map (fun s => s.2.cost)) =
      (model_scores.map (fun t => t.2.cost)) from rfl, hmax, hmin]
    simp [norm_cost_of]

/-- Witness for C8 at a concrete two-model candidate set with tied qualities
and tied costs. -/
theorem degenerate_ties_normalize_to_one_witness :
    (("a", n0).2.normalized_quality = 1) ∧ (("a", n0).2.normalized_cost = 1) :=
  ⟨(degenerate_ties_normalize_to_one (calculate_model_scores probs0 catalog0) (2/10) (8/10)).1
      (by intro a ha b hb
          norm_num +decide [calculate_model_scores, catalog0, probs0, mdA, tierOf] at ha hb
          rw [ha, hb])
      ("a", n0)
      (by norm_num +decide [normalize_scores, calculate_model_scores, catalog0, probs0, mdA,
        tierOf, normalize_one, norm_quality_of, norm_cost_of, py_max, py_min, n0]),
   (degenerate_ties_normalize_to_one (calculate_model_scores probs0 catalog0) (2/10) (8/10)).2
      (by intro a ha b hb
          norm_num +decide [calculate_model_scores, catalog0, probs0, mdA, tierOf] at ha hb
          rw [ha, hb])
      ("a", n0)
      (by norm_num +decide [normalize_scores, calculate_model_scores, catalog0, probs0, mdA,
        tierOf, normalize_one, norm_quality_of, norm_cost_of, py_max, py_min, n0])⟩

/-! Sorting lemmas: the stable descending sort used by `route_prompt`. -/

lemma sort_desc_perm (l : List (String × Normalized)) : (sort_desc l).Perm l :=
  List.perm_insertionSort score_ge l

lemma sort_desc_sorted (l : List (String × Normalized)) :
    List.Pairwise (fun a b => b.2.final_score ≤ a.2.final_score) (sort_desc l) :=
  List.sorted_insertionSort score_ge l

lemma filter_orderedInsert_pos (x : String × Normalized) (l : List (String × Normalized))
    (p : String × Normalized → Bool) (hx : p x = true)
    (himp : ∀ y, p y = true → score_ge x y) :
    (l.orderedInsert score_ge x).filter p = x :: l.filter p := by
  induction l with
  | nil => simp [List.orderedInsert, List.filter_cons, hx]
  | cons b bs ih =>
    by_cases hr : score_ge x b
    · rw [List.orderedInsert, if_pos hr]
      simp [List.filter_cons, hx]
    · rw [List.orderedInsert, if_neg hr]
      have hb : p b = false := by
        cases hpb : p b
        · rfl
        · exact absurd (himp b hpb) hr
      simp only [List.filter_cons, hb, Bool.false_eq_true, if_false]
      exact ih

lemma filter_orderedInsert_neg (x : String × Normalized) (l : List (String × Normalized))
    (p : String × Normalized → Bool) (hx : p x = false) :
    (l.orderedInsert score_ge x).filter p = l.filter p := by
  induction l with
  | nil => simp [List.orderedInsert, List.filter_cons, hx]
  | cons b bs ih =>
    by_cases hr : score_ge x b
    · rw [List.orderedInsert, if_pos hr]
      simp [List.filter_cons, hx]
    · rw [List.orderedInsert, if_neg hr]
      simp only [List.filter_cons]
      rw [ih]

/-- Stability of the descending sort: filtering to any fixed final score
commutes with sorting, so equal-score candidates keep their original
(catalog) relative order. -/
lemma sort_desc_stable (l : List (String × Normalized)) (s : ℚ) :
    (sort_desc l).filter (fun x => x.2.final_score == s) =
      l.filter (fun x => x.2.final_score == s) := by
  induction l with
  | nil => rfl
  | cons x xs ih =>
    show (List.orderedInsert score_ge x (List.insertionSort score_ge xs)).filter _ = _
    by_cases hx : (x.2.final_score == s) = true
    · rw [filter_orderedInsert_pos x _ _ hx ?himp]
      · rw [show List.insertionSort score_ge xs = sort_desc xs from rfl, ih]
        simp [List.filter_cons, hx]
      case himp =>
        intro y hy
        have h1 : x.2.final_score = s := by simpa using hx
        have h2 : y.2.final_score = s := by simpa using hy
        show y.2.final_score ≤ x.2.final_score
        rw [h1, h2]
    · have hx' : (x.2.final_score == s) = false := by
        cases hb : (x.2.final_score == s)
        · rfl
        · exact absurd hb hx
      rw [filter_orderedInsert_neg x _ _ hx']
      rw [show List.insertionSort score_ge xs = sort_desc xs from rfl, ih]
      simp [List.filter_cons, hx']

/-! Inversion of a successful routing call. -/

lemma route_prompt_eq_some {cfg_models : List (String × ModelData)}
    {prompt request_type : String} {probs : List (String × ℚ)} {d : RouteDecision}
    (h : route_prompt cfg_models prompt request_type probs = some d) :
    ∃ cand c cs top rest,
      effective_candidates cfg_models request_type = some cand ∧
      probs = c :: cs ∧
      sort_desc (normalize_scores (calculate_model_scores (c :: cs) cand)
        (get_dynamic_weights (c :: cs)).1 (get_dynamic_weights (c :: cs)).2) = top :: rest ∧
      d = { primary_model := top.1
            primary_model_display_name := top.2.display_name
            secondary_model := (match rest with | [] => top | s :: _ => s).1
            secondary_model_display_name :=
              (match rest with | [] => top | s :: _ => s).2.display_name
            default_model := find_default_model cfg_models
            default_model_display_name :=
              (find_default_model cfg_models).map (fun dm =>
                (lookup_display (display_map_entries cfg_models) dm).getD dm)
            metadata :=
              { predicted_category := max_key_aux c cs
                confidence := cs.foldl (fun b p => max b p.2) c.2
                category_probabilities := c :: cs
                quality_weight := (get_dynamic_weights (c :: cs)).1
                cost_weight := (get_dynamic_weights (c :: cs)).2
                model_scores := normalize_scores (calculate_model_scores (c :: cs) cand)
                  (get_dynamic_weights (c :: cs)).1 (get_dynamic_weights (c :: cs)).2
                classification_method := "ml_classification" } } := by
  unfold route_prompt at h
  cases heff : effective_candidates cfg_models request_type with
  | none => rw [heff] at h; cases h
  | some cand =>
    rw [heff] at h
    cases probs with
    | nil => cases h
    | cons c cs =>
      dsimp only at h
      cases hsort : sort_desc (normalize_scores (calculate_model_scores (c :: cs) cand)
          (get_dynamic_weights (c :: cs)).1 (get_dynamic_weights (c :: cs)).2) with
      | nil => rw [hsort] at h; cases h
      | cons top rest =>
        rw [hsort] at h
        dsimp only at h
        refine ⟨cand, c, cs, top, rest, rfl, rfl, hsort, ?_⟩
        exact (Option.some.inj h).symm

/-- Claim C10: the rule-based fast path is never taken: given the same classifier
distribution, routing is independent of the prompt text (the heuristic rule
result is unconditionally discarded and the ML collaborator's distribution is
used), and a successful decision always reports `ml_classification` and the
classifier distribution verbatim — also for prompts whose text matches the
patterns of `_apply_simple_prompt_rules`. -/
theorem ml_classification_always (cfg_models : List (String × ModelData))
    (request_type : String) (probs : List (String × ℚ)) (prompt1 prompt2 : String)
    (d : RouteDecision) (h : route_prompt cfg_models prompt1 request_type probs = some d) :
    route_prompt cfg_models prompt2 request_type probs = some d ∧
    d.metadata.classification_method = "ml_classification" ∧
    d.metadata.category_probabilities = probs := by
  obtain ⟨cand, c, cs, top, rest, heff, hp, hsort, rfl⟩ := route_prompt_eq_some h
  exact ⟨h, rfl, hp.symm⟩

/-- Shared evaluation of the fixture routing call (the prompt is arbitrary:
`route_prompt` never reads it). -/
lemma route_catalog0 (prompt : String) :
    route_prompt catalog0 prompt "free" probs0 = some d0 := by
  norm_num +decide [route_prompt, effective_candidates, filter_models_by_tier, catalog0,
    probs0, tierOf, mdA, max_key_aux, get_dynamic_weights, importance_score_raw, total_prob,
    category_importance, task_importance, calculate_model_scores, normalize_scores,
    normalize_one, norm_quality_of, norm_cost_of, py_max, py_min, sort_desc,
    find_default_model, display_map_entries, lookup_display, d0, n0]

/-- Witness for C10: a prompt matching the math rule patterns still routes on
the ML distribution and reports `ml_classification`. -/
theorem ml_classification_always_witness :
    (apply_simple_prompt_rules "calculate 2").isSome = true ∧
    route_prompt catalog0 "calculate 2" "free" probs0 = some d0 ∧
    d0.metadata.classification_method = "ml_classification" ∧
    d0.metadata.category_probabilities = probs0 := by
  have h := ml_classification_always catalog0 "free" probs0 "hi" "calculate 2" d0
    (route_catalog0 "hi")
  exact ⟨by decide, h.1, h.2.1, h.2.2⟩

/-- Claim C2: a successful decision ranks the scored candidates with a stable
descending sort on final score (a permutation, pairwise descending, and
equal-score candidates keep catalog iteration order), the primary model is
the top-ranked candidate, the secondary model is the second-ranked candidate
or the primary when only one candidate exists, and the decision's default
model is the catalog's first `is_default` entry regardless of the ranked
set. -/
theorem ranking_and_selection (cfg_models : List (String × ModelData))
    (prompt request_type : String) (probs : List (String × ℚ)) (d : RouteDecision)
    (h : route_prompt cfg_models prompt request_type probs = some d) :
    ∃ cand, effective_candidates cfg_models request_type = some cand ∧
      d.metadata.model_scores = normalize_scores (calculate_model_scores probs cand)
        (get_dynamic_weights probs).1 (get_dynamic_weights probs).2 ∧
      (sort_desc d.metadata.model_scores).Perm d.metadata.model_scores ∧
      List.Pairwise (fun a b => b.2.final_score ≤ a.2.final_score)
        (sort_desc d.metadata.model_scores) ∧
      (∀ s : ℚ, (sort_desc d.metadata.model_scores).filter (fun x => x.2.final_score == s) =
        d.metadata.model_scores.filter (fun x => x.2.final_score == s)) ∧
      (∃ top rest, sort_desc d.metadata.model_scores = top :: rest ∧
        d.primary_model = top.1 ∧
        d.secondary_model = (match rest with | [] => top | s :: _ => s).1 ∧
        (rest = [] → d.secondary_model = d.primary_model)) ∧
      d.default_model = find_default_model cfg_models := by
  obtain ⟨cand, c, cs, top, rest, heff, rfl, hsort, rfl⟩ := route_prompt_eq_some h
  refine ⟨cand, heff, rfl, sort_desc_perm _, sort_desc_sorted _,
    fun s => sort_desc_stable _ s, ⟨top, rest, hsort, rfl, rfl, ?_⟩, rfl⟩
  intro hrest
  subst hrest
  rfl

/-- Witness for C2 at the concrete fixture routing call. -/
theorem ranking_and_selection_witness :
    ∃ cand, effective_candidates catalog0 "free" = some cand ∧
      d0.metadata.model_scores = normalize_scores (calculate_model_scores probs0 cand)
        (get_dynamic_weights probs0).1 (get_dynamic_weights probs0).2 ∧
      (sort_desc d0.metadata.model_scores).Perm d0.metadata.model_scores ∧
      List.Pairwise (fun a b => b.2.final_score ≤ a.2.final_score)
        (sort_desc d0.metadata.model_scores) ∧
      (∀ s : ℚ, (sort_desc d0.metadata.model_scores).filter (fun x => x.2.final_score == s) =
        d0.metadata.model_scores.filter (fun x => x.2.final_score == s)) ∧
      (∃ top rest, sort_desc d0.metadata.model_scores = top :: rest ∧
        d0.primary_model = top.1 ∧
        d0.secondary_model = (match rest with | [] => top | s :: _ => s).1 ∧
        (rest = [] → d0.secondary_model = d0.primary_model)) ∧
      d0.default_model = find_default_model catalog0 :=
  ranking_and_selection catalog0 "hi" "free" probs0 d0 (route_catalog0 "hi")

/-- Claim C4: the tier filter selects exactly the models whose tier field equals
the requested tier (strict partition, not hierarchical), and on the
non-fallback path every scored candidate of the decision — in particular the
primary and the secondary model, which are drawn from the scored set — has
the requested tier. -/
theorem tier_filter_strict_partition (cfg_models : List (String × ModelData))
    (request_type : String) (hreq : request_type = "pro" ∨ request_type = "free") :
    filter_models_by_tier cfg_models request_type =
      cfg_models.filter (fun m => tierOf m.2 == request_type) ∧
    (∀ prompt probs d, filter_models_by_tier cfg_models request_type ≠ [] →
      route_prompt cfg_models prompt request_type probs = some d →
      (∀ x ∈ d.metadata.model_scores, x.2.tier = request_type) ∧
      d.primary_model ∈ d.metadata.model_scores.map Prod.fst ∧
      d.secondary_model ∈ d.metadata.model_scores.map Prod.fst) := by
  have hfilter : filter_models_by_tier cfg_models request_type =
      cfg_models.filter (fun m => tierOf m.2 == request_type) := by
    unfold filter_models_by_tier
    apply List.filter_congr
    intro m _
    rcases hreq with rfl | rfl
    · rw [if_pos rfl]
    · rw [if_neg (by decide), if_pos rfl]
  refine ⟨hfilter, ?_⟩
  intro prompt probs d hne hroute
  obtain ⟨cand, c, cs, top, rest, heff, hp, hsort, rfl⟩ := route_prompt_eq_some hroute
  have hcand : cand = filter_models_by_tier cfg_models request_type := by
    unfold effective_candidates at heff
    rw [if_neg (by simpa [List.isEmpty_iff] using hne)] at heff
    exact (Option.some.inj heff).symm
  have htier : ∀ x ∈ normalize_scores (calculate_model_scores (c :: cs) cand)
      (get_dynamic_weights (c :: cs)).1 (get_dynamic_weights (c :: cs)).2,
      x.2.tier = request_type := by
    intro x hx
    obtain ⟨s, hs, rfl⟩ := mem_normalize_scores hx
    unfold calculate_model_scores at hs
    obtain ⟨m, hm, rfl⟩ := List.mem_map.mp hs
    have hmm : m ∈ cfg_models.filter (fun t => tierOf t.2 == request_type) := by
      rw [hcand, hfilter] at hm
      exact hm
    have hpred := (List.mem_filter.mp hmm).2
    have heq : tierOf m.2 = request_type := by simpa using hpred
    simpa [normalize_one] using heq
  have hmem_sort : ∀ y ∈ (top :: rest), y ∈ normalize_scores
      (calculate_model_scores (c :: cs) cand)
      (get_dynamic_weights (c :: cs)).1 (get_dynamic_weights (c :: cs)).2 := by
    intro y hy
    rw [← hsort] at hy
    exact (sort_desc_perm _).mem_iff.mp hy
  refine ⟨htier, List.mem_map_of_mem Prod.fst (hmem_sort top (by simp)), ?_⟩
  cases rest with
  | nil => exact List.mem_map_of_mem Prod.fst (hmem_sort top (by simp))
  | cons s rest2 => exact List.mem_map_of_mem Prod.fst (hmem_sort s (by simp))

/-- Witness for C4 at the concrete fixture routing call. -/
theorem tier_filter_strict_partition_witness :
    filter_models_by_tier catalog0 "free" =
      catalog0.filter (fun m => tierOf m.2 == "free") ∧
    d0.primary_model ∈ d0.metadata.model_scores.map Prod.fst :=
  ⟨(tier_filter_strict_partition catalog0 "free" (Or.inr rfl)).1,
   ((tier_filter_strict_partition catalog0 "free" (Or.inr rfl)).2 "hi" probs0 d0
      (by norm_num +decide [filter_models_by_tier, catalog0, tierOf, mdA])
      (route_catalog0 "hi")).2.1⟩

/-- Claim C5: with a non-empty catalog of validly named models (non-empty name
strings), the candidate set handed to scoring always exists and is
non-empty; when the tier filter comes back empty, it is the catalog's first
`is_default` entry if one exists, and otherwise the first catalog entry in
iteration order. -/
theorem tier_fallback_nonempty (cfg_models : List (String × ModelData))
    (request_type : String) (hne : cfg_models ≠ [])
    (hnames : ∀ m ∈ cfg_models, m.1 ≠ "") :
    ∃ cand, effective_candidates cfg_models request_type = some cand ∧ cand ≠ [] ∧
      (filter_models_by_tier cfg_models request_type = [] →
        ((∃ dm, find_default_model cfg_models = some dm ∧ cand.map Prod.fst = [dm]) ∨
         (find_default_model cfg_models = none ∧
           ∃ m, cfg_models.head? = some m ∧ cand = [m]))) := by
  unfold effective_candidates
  by_cases hemp : (filter_models_by_tier cfg_models request_type).isEmpty = true
  · rw [if_pos hemp]
    cases hdm : find_default_model cfg_models with
    | some dm =>
      obtain ⟨e, hfind, he1⟩ : ∃ e, cfg_models.find? (fun m => m.2.is_default) = some e ∧
          e.1 = dm := by
        unfold find_default_model at hdm
        obtain ⟨e, h1, h2⟩ := Option.map_eq_some'.mp hdm
        exact ⟨e, h1, h2⟩
      have hemem : e ∈ cfg_models := List.mem_of_find?_eq_some hfind
      have hdm_ne : dm ≠ "" := he1 ▸ hnames e hemem
      unfold fallback_models
      rw [hdm]
      dsimp only
      rw [if_neg hdm_ne]
      cases hlk : dict_lookup cfg_models dm with
      | none =>
        exfalso
        unfold dict_lookup at hlk
        have hfnone : cfg_models.find? (fun m => m.1 == dm) = none := by
          cases hf : cfg_models.find? (fun m => m.1 == dm)
          · rfl
          · rw [hf] at hlk; cases hlk
        have := List.find?_eq_none.mp hfnone e hemem
        simp [he1] at this
      | some md =>
        refine ⟨[(dm, md)], rfl, by simp, ?_⟩
        intro _
        left
        exact ⟨dm, rfl, by simp⟩
    | none =>
      unfold fallback_models
      rw [hdm]
      dsimp only
      cases cfg_models with
      | nil => exact absurd rfl hne
      | cons m rest =>
        refine ⟨[m], rfl, by simp, ?_⟩
        intro _
        right
        exact ⟨rfl, m, rfl, rfl⟩
  · rw [if_neg hemp]
    have hne' : filter_models_by_tier cfg_models request_type ≠ [] := by
      intro h0
      rw [h0] at hemp
      exact hemp rfl
    exact ⟨_, rfl, hne', fun h0 => absurd h0 hne'⟩

/-- Witness for C5: a pro request against a catalog with only a free-tier
default model takes the default fallback. -/
theorem tier_fallback_nonempty_witness :
    ∃ cand, effective_candidates catalog0 "pro" = some cand ∧ cand ≠ [] ∧
      (filter_models_by_tier catalog0 "pro" = [] →
        ((∃ dm, find_default_model catalog0 = some dm ∧ cand.map Prod.fst = [dm]) ∨
         (find_default_model catalog0 = none ∧
           ∃ m, catalog0.head? = some m ∧ cand = [m]))) :=
  tier_fallback_nonempty catalog0 "pro" (by simp [catalog0])
    (by intro m hm
        simp only [catalog0, List.mem_singleton] at hm
        subst hm
        decide)

/-- Claim C6, amended: `route_prompt` performs no configuration re-check — the
call to `_check_config_reload` at its top is commented out, so a routing
call leaves the router configuration state unchanged; the
`_check_config_reload` method itself, when invoked, reloads the catalog
exactly when more than 60 seconds have passed since the last check and the
config file's mtime is newer than the last-check timestamp, and updates the
timestamp whenever the interval has passed. -/
theorem route_does_not_reload_config (st : RouterState) (current_time mtime : ℚ)
    (file_models : List (String × ModelData)) :
    route_prompt_config_effect st current_time mtime file_models = st ∧
    (config_check_interval < current_time - st.last_config_check →
      ((st.last_config_check < mtime →
        check_config_reload st current_time mtime file_models =
          { model_scores_cfg := file_models
            default_model := find_default_model file_models
            last_config_check := current_time }) ∧
       (¬ st.last_config_check < mtime →
        check_config_reload st current_time mtime file_models =
          { st with last_config_check := current_time }))) ∧
    (¬ config_check_interval < current_time - st.last_config_check →
      check_config_reload st current_time mtime file_models = st) := by
  refine ⟨rfl, ?_, ?_⟩
  · intro h1
    constructor
    · intro h2
      unfold check_config_reload load_config
      rw [if_pos h1]
      dsimp only
      rw [if_pos h2]
    · intro h2
      unfold check_config_reload
      rw [if_pos h1]
      dsimp only
      rw [if_neg h2]
  · intro h1
    unfold check_config_reload
    rw [if_neg h1]

/-- Counterexample for C6: with the reload interval elapsed (100 − 0 > 60), a
newer file mtime (50 > 0) and a changed file, the configuration state after a
routing call still holds the old catalog — while `_check_config_reload`
itself, had it been called, would have loaded the new one. -/
theorem routing_skips_config_reload_counterexample :
    (route_prompt_config_effect
        { model_scores_cfg := catalog0, default_model := some "a", last_config_check := 0 }
        100 50 [("b", mdB)]).model_scores_cfg.map Prod.fst ≠ ["b"] ∧
    (check_config_reload
        { model_scores_cfg := catalog0, default_model := some "a", last_config_check := 0 }
        100 50 [("b", mdB)]).model_scores_cfg.map Prod.fst = ["b"] := by
  constructor
  · have he : (route_prompt_config_effect
        { model_scores_cfg := catalog0, default_model := some "a", last_config_check := 0 }
        100 50 [("b", mdB)]).model_scores_cfg.map Prod.fst = ["a"] := rfl
    rw [he]
    decide
  · unfold check_config_reload load_config
    rw [if_pos (by norm_num [config_check_interval])]
    dsimp only
    rw [if_pos (by norm_num)]
    rfl

/-- Witness for the amended C6 at concrete times: the routing call keeps the
state, while a direct reload check with elapsed interval and newer mtime
loads the new file. -/
theorem route_does_not_reload_config_witness :
    route_prompt_config_effect
        { model_scores_cfg := catalog0, default_model := some "a", last_config_check := 0 }
        100 50 [("b", mdB)] =
      { model_scores_cfg := catalog0, default_model := some "a", last_config_check := 0 } ∧
    check_config_reload
        { model_scores_cfg := catalog0, default_model := some "a", last_config_check := 0 }
        100 50 [("b", mdB)] =
      { model_scores_cfg := [("b", mdB)], default_model := find_default_model [("b", mdB)],
        last_config_check := 100 } :=
  ⟨(route_does_not_reload_config
      { model_scores_cfg := catalog0, default_model := some "a", last_config_check := 0 }
      100 50 [("b", mdB)]).1,
   ((route_does_not_reload_config
      { model_scores_cfg := catalog0, default_model := some "a", last_config_check := 0 }
      100 50 [("b", mdB)]).2.1 (by norm_num [config_check_interval])).1 (by norm_num)⟩

/-- Claim C9, amended: the endpoint rejects a request whose tier is neither "pro"
nor "free" with HTTP 400 before any scoring work (independently of the
catalog, the prompt and the classifier output); empty prompt text is not
validated — with a valid tier the endpoint behaves exactly as `route_prompt`
dictates for every prompt, including the empty one. -/
theorem endpoint_tier_validation_only (cfg_models : List (String × ModelData))
    (prompt request_type : String) (probs : List (String × ℚ)) :
    (request_type ≠ "pro" ∧ request_type ≠ "free" →
      route_prompt_endpoint cfg_models prompt request_type probs = Except.error 400) ∧
    (request_type = "pro" ∨ request_type = "free" →
      route_prompt_endpoint cfg_models prompt request_type probs =
        match route_prompt cfg_models prompt request_type probs with
        | some d => Except.ok d
        | none => Except.error 500) := by
  constructor
  · intro h
    unfold route_prompt_endpoint
    rw [if_pos h]
  · intro h
    unfold route_prompt_endpoint
    rw [if_neg (by rcases h with rfl | rfl <;> simp)]

/-- Counterexample for C9: a call with empty prompt text and a valid tier is
not rejected with an InvalidArgument-class (HTTP 400) error — it is routed
normally. -/
theorem empty_prompt_not_rejected_counterexample :
    route_prompt_endpoint catalog0 "" "free" probs0 ≠ Except.error 400 := by
  have hr : route_prompt catalog0 "" "free" probs0 = some d0 := route_catalog0 ""
  unfold route_prompt_endpoint
  rw [if_neg (by simp), hr]
  simp

/-- Witness for the amended C9: a malformed tier is rejected with 400. -/
theorem endpoint_tier_validation_only_witness :
    route_prompt_endpoint catalog0 "hi" "enterprise" probs0 = Except.error 400 :=
  (endpoint_tier_validation_only catalog0 "hi" "enterprise" probs0).1 (by decide)

end MayuraRouter
